import Mathlib

/-!
Shallow embedding of the books_fastapi list-query engine and write
coordinator (src/app/backend/books/repository.py and service.py).

Modelling conventions:
* UUIDs are modelled as `Nat` (opaque identities; Python `UUID` objects are
  always truthy, so an `Option Nat` filter argument is "applied iff some").
* SQL `DECIMAL(3,1)` ratings are modelled as `ℚ`.
* The relational store is a `DB` record of lists of rows; SQLAlchemy
  queries become list computations; `flush`/ORM mutation becomes explicit
  state passing (functions return the new `DB`).
* Python truthiness (`if q:`, `if published_year:`) is modelled exactly:
  an empty string and the integer 0 are falsy.
* SQL three-valued logic on NULL columns: a comparison against a NULL
  `rating`/`published_year` is false, so such rows never match a
  rating/year predicate.
* `ILIKE %q%` is case-insensitive substring containment (SQL wildcard
  metacharacters occurring inside `q` itself are not modelled).
-/

namespace BooksApi

/-- A row of the `books` table (timestamps omitted: server-assigned,
never read by the core logic). -/
structure Book where
  id : Nat
  title : String
  rating : Option ℚ
  description : Option String
  published_year : Option Int
deriving DecidableEq, Repr

/-- A row of the `genres` table. -/
structure Genre where
  id : Nat
  name : String
deriving DecidableEq, Repr

/-- A row of the `books_genres` link table (composite key). -/
structure BookGenre where
  book_id : Nat
  genre_id : Nat
deriving DecidableEq, Repr

/-- The `Role` enumeration. -/
inductive Role where
  | author
  | editor
  | illustrator
deriving DecidableEq, Repr

/-- A row of the `contributors` table. -/
structure Contributor where
  id : Nat
  full_name : String
deriving DecidableEq, Repr

/-- A row of the `books_contributors` link table (composite key). -/
structure BookContributor where
  book_id : Nat
  contributor_id : Nat
  role : Role
deriving DecidableEq, Repr

/-- The relational store: one list of rows per table. -/
structure DB where
  books : List Book
  genres : List Genre
  bookGenres : List BookGenre
  contributors : List Contributor
  bookContributors : List BookContributor
deriving Repr

/-- The `SortField` enumeration (models.py). -/
inductive SortField where
  | title
  | rating
  | published_year
deriving DecidableEq, Repr

/-- The `SortOrder` enumeration (models.py). -/
inductive SortOrder where
  | asc
  | desc
deriving DecidableEq, Repr

/-- Models `SortField(sort)` with the `except ValueError: sort_enum = SortField.TITLE`
fallback, as written in both service.py and repository.py. Total by
construction. -/
def SortField.ofString (s : String) : SortField :=
  if s = "title" then .title
  else if s = "rating" then .rating
  else if s = "published_year" then .published_year
  else .title

/-- The `sort_enum.value` string. -/
def SortField.value : SortField → String
  | .title => "title"
  | .rating => "rating"
  | .published_year => "published_year"

/-- Models `SortOrder(order)` with the `except ValueError: order_enum = SortOrder.ASC`
fallback. Total by construction. -/
def SortOrder.ofString (s : String) : SortOrder :=
  if s = "asc" then .asc
  else if s = "desc" then .desc
  else .asc

/-- The `order_enum.value` string. -/
def SortOrder.value : SortOrder → String
  | .asc => "asc"
  | .desc => "desc"

/-- Python truthiness of an `Optional[str]`: `None` and `""` are falsy. -/
def truthyStr : Option String → Bool
  | none => false
  | some s => ¬ s.isEmpty

/-- Python truthiness of an `Optional[int]`: `None` and `0` are falsy. -/
def truthyInt : Option Int → Bool
  | none => false
  | some n => n ≠ 0

/-- Substring containment on character lists. -/
def containsSub (pat : List Char) : List Char → Bool
  | [] => pat.isEmpty
  | c :: rest => pat.isPrefixOf (c :: rest) || containsSub pat rest

/-- Models `column ILIKE` on the pattern percent-q-percent: case-insensitive
substring match. -/
def ilike (s q : String) : Bool :=
  containsSub q.toLower.data s.toLower.data

/-- Models `Book.rating >= rating_min` under SQL NULL semantics (NULL compares
false). -/
def ratingGe (r : Option ℚ) (m : ℚ) : Bool :=
  match r with
  | some v => m ≤ v
  | none => false

/-- Models `Book.rating <= rating_max` under SQL NULL semantics. -/
def ratingLe (r : Option ℚ) (m : ℚ) : Bool :=
  match r with
  | some v => v ≤ m
  | none => false

/-- Models `Book.published_year == published_year` under SQL NULL semantics. -/
def yearEq (y : Option Int) (v : Int) : Bool :=
  match y with
  | some w => w = v
  | none => false

/-- The conjunction of the non-join predicates appended to `conditions` in
`BookRepository.get_books_list` (q substring, published_year equality,
rating range), each guarded exactly as in the source (`if q:`,
`if published_year:`, `... is not None`). -/
def bookConds (q : Option String) (published_year : Option Int)
    (rating_min rating_max : Option ℚ) (b : Book) : Bool :=
  (if truthyStr q then ilike b.title (q.getD "") else true) &&
  (if truthyInt published_year then
    yearEq b.published_year (published_year.getD 0) else true) &&
  (match rating_min with
   | some m => ratingGe b.rating m
   | none => true) &&
  (match rating_max with
   | some m => ratingLe b.rating m
   | none => true)

/-- The FROM clause of the books query. Without a genre filter it is the
`books` table; with `genre_id` supplied (`if genre_id:` — a UUID is always
truthy) it is the inner join Book ⋈ BookGenre ⋈ Genre, with the
`Genre.id == genre_id` condition (which in the source travels through the
shared `conditions` list but only constrains the joined Genre row) applied
at the join. The query selects Book entities, so each result row is the
Book component. -/
def baseRows (db : DB) (genre_id : Option Nat) : List Book :=
  match genre_id with
  | none => db.books
  | some gid =>
    db.books.flatMap (fun b =>
      db.bookGenres.flatMap (fun bg =>
        if bg.book_id = b.id then
          db.genres.filterMap (fun g =>
            if bg.genre_id = g.id ∧ g.id = gid then some b else none)
        else []))

/-- The rows satisfying every supplied filter, pagination and ordering
ignored — the operand of both the COUNT subquery and the paginated
SELECT. -/
def filteredRows (db : DB) (q : Option String) (genre_id : Option Nat)
    (published_year : Option Int) (rating_min rating_max : Option ℚ) :
    List Book :=
  (baseRows db genre_id).filter (bookConds q published_year rating_min rating_max)

/-- The comparison used by `ORDER BY column ASC` for each sort column.
NULLs are placed last in ascending order (PostgreSQL default). -/
def sortLe : SortField → Book → Book → Bool
  | .title, a, b => a.title ≤ b.title
  | .rating, a, b =>
    match a.rating, b.rating with
    | some x, some y => x ≤ y
    | some _, none => true
    | none, some _ => false
    | none, none => true
  | .published_year, a, b =>
    match a.published_year, b.published_year with
    | some x, some y => x ≤ y
    | some _, none => true
    | none, some _ => false
    | none, none => true

/-- Models `query.order_by(col.asc() / col.desc())`: sort the filtered rows;
descending order uses the flipped comparison. -/
def sortBooks (f : SortField) (o : SortOrder) (l : List Book) : List Book :=
  match o with
  | .asc => l.mergeSort (sortLe f)
  | .desc => l.mergeSort (fun a b => sortLe f b a)

/-- The `(items, total)` pair a repository list method returns. -/
structure RepoPage (α : Type) where
  items : List α
  total : Nat
deriving DecidableEq, Repr

/-- Embeds `BookRepository.get_books_list`: build the filtered query, count it
(before ordering/pagination), parse sort/order with fallback, order, then
apply `offset((page-1)*page_size).limit(page_size)`. `page`/`page_size`
are Python ints; the services always pass clamped values, for which the
offset is nonnegative (negative values are truncated to 0 by `Int.toNat`,
a case no in-repo caller reaches). -/
def BookRepository.get_books_list (db : DB) (page page_size : Int)
    (sort order : String) (q : Option String) (genre_id : Option Nat)
    (published_year : Option Int) (rating_min rating_max : Option ℚ) :
    RepoPage Book :=
  let rows := filteredRows db q genre_id published_year rating_min rating_max
  let total := rows.length
  let sorted := sortBooks (SortField.ofString sort) (SortOrder.ofString order) rows
  let offset := ((page - 1) * page_size).toNat
  { items := (sorted.drop offset).take page_size.toNat, total := total }

/-- Embeds `BookRepository.get_book_by_id`. -/
def BookRepository.get_book_by_id (db : DB) (book_id : Nat) : Option Book :=
  db.books.find? (fun b => b.id = book_id)

/-- Embeds `BookRepository.get_book_genres`: Genre ⋈ BookGenre filtered on
`book_id`. -/
def BookRepository.get_book_genres (db : DB) (book_id : Nat) : List Genre :=
  db.genres.flatMap (fun g =>
    db.bookGenres.filterMap (fun bg =>
      if bg.genre_id = g.id ∧ bg.book_id = book_id then some g else none))

/-- Embeds `BookRepository.get_book_contributors`: (Contributor, role) pairs via
BookContributor filtered on `book_id`. -/
def BookRepository.get_book_contributors (db : DB) (book_id : Nat) :
    List (Contributor × Role) :=
  db.contributors.flatMap (fun c =>
    db.bookContributors.filterMap (fun bc =>
      if bc.contributor_id = c.id ∧ bc.book_id = book_id then
        some (c, bc.role)
      else none))

/-- The genre rows satisfying the optional name-substring filter
(`if q:`), pagination ignored — the operand of both the COUNT subquery
and the paginated SELECT of the genres listing. -/
def genreRows (db : DB) (q : Option String) : List Genre :=
  db.genres.filter (fun g =>
    if truthyStr q then ilike g.name (q.getD "") else true)

/-- Embeds `BookRepository.get_genres_list`: name-substring filter (`if q:`),
count before pagination, `ORDER BY name ASC`, then offset/limit. -/
def BookRepository.get_genres_list (db : DB) (page page_size : Int)
    (q : Option String) : RepoPage Genre :=
  let rows := genreRows db q
  let total := rows.length
  let sorted := rows.mergeSort (fun a b => a.name ≤ b.name)
  let offset := ((page - 1) * page_size).toNat
  { items := (sorted.drop offset).take page_size.toNat, total := total }

/-- Embeds `BookRepository.get_genre_by_id`. -/
def BookRepository.get_genre_by_id (db : DB) (genre_id : Nat) : Option Genre :=
  db.genres.find? (fun g => g.id = genre_id)

/-- Embeds `BookRepository.get_genre_by_name`: exact (case-sensitive) name
lookup. -/
def BookRepository.get_genre_by_name (db : DB) (name : String) : Option Genre :=
  db.genres.find? (fun g => g.name = name)

/-- Embeds `BookRepository.create_genre`: insert a row. The store-assigned id
(`uuid4` default) is passed explicitly. -/
def BookRepository.create_genre (db : DB) (newId : Nat) (name : String) :
    Genre × DB :=
  let g : Genre := { id := newId, name := name }
  (g, { db with genres := db.genres ++ [g] })

/-- Embeds `BookRepository.update_book_genres`: delete every BookGenre row of the
book, then insert one row per supplied genre id. -/
def BookRepository.update_book_genres (db : DB) (book_id : Nat)
    (genre_ids : List Nat) : DB :=
  { db with bookGenres :=
      db.bookGenres.filter (fun bg => bg.book_id ≠ book_id)
        ++ genre_ids.map (fun gid => { book_id := book_id, genre_id := gid }) }

/-- Embeds `BookRepository.update_book_contributors`: delete every
BookContributor row of the book, then insert one row per supplied
(contributor_id, role) pair. -/
def BookRepository.update_book_contributors (db : DB) (book_id : Nat)
    (contributors : List (Nat × Role)) : DB :=
  { db with bookContributors :=
      db.bookContributors.filter (fun bc => bc.book_id ≠ book_id)
        ++ contributors.map (fun c =>
            { book_id := book_id, contributor_id := c.1, role := c.2 }) }

/-- A partial Book update (schemas.BookUpdate) with pydantic
exclude-unset semantics made explicit: for each core field, `none` means
the request omitted the field, `some none` means it supplied an explicit
null, `some (some v)` means it supplied the value `v`. For the link
lists the schema default is `None` and the service tests `is not None`,
so a single `Option` suffices. -/
structure BookUpdate where
  title : Option (Option String) := none
  rating : Option (Option ℚ) := none
  description : Option (Option String) := none
  published_year : Option (Option Int) := none
  genre_ids : Option (List Nat) := none
  contributors : Option (List (Nat × Role)) := none
deriving DecidableEq, Repr

/-- Whether `book_data.dict(exclude_unset=True, exclude=(genre_ids,
contributors))` is non-empty: some core field was set in the request. -/
def BookUpdate.coreSet (u : BookUpdate) : Bool :=
  u.title.isSome || u.rating.isSome || u.description.isSome ||
    u.published_year.isSome

/-- The per-row effect of `for key, value in book_data.items(): if
hasattr(book, key) and value is not None: setattr(book, key, value)`:
only fields the request set to a non-null value are written. -/
def applyCoreUpdate (b : Book) (u : BookUpdate) : Book :=
  { b with
    title := match u.title with
      | some (some v) => v
      | _ => b.title
    rating := match u.rating with
      | some (some v) => some v
      | _ => b.rating
    description := match u.description with
      | some (some v) => some v
      | _ => b.description
    published_year := match u.published_year with
      | some (some v) => v
      | _ => b.published_year }

/-- Embeds `BookRepository.update_book`: fetch the row by id; `None` if absent,
otherwise mutate the non-null supplied core fields in place. -/
def BookRepository.update_book (db : DB) (book_id : Nat) (u : BookUpdate) :
    Option Book × DB :=
  match db.books.find? (fun b => b.id = book_id) with
  | none => (none, db)
  | some b =>
    let b2 := applyCoreUpdate b u
    (some b2,
     { db with books := db.books.map (fun x => if x.id = book_id then b2 else x) })

/-- The `BookResponse` shape: the denormalized single-book response shape
(GenreResponse carries exactly the fields of `Genre`, so `Genre` is
reused). -/
structure BookResponse where
  id : Nat
  title : String
  rating : Option ℚ
  description : Option String
  published_year : Option Int
  genres : List Genre
  contributors : List (Contributor × Role)
deriving DecidableEq, Repr

/-- The relation hydration the service performs for every fetched book
(in `get_book_by_id` and per list element in `get_books_list`). -/
def hydrateBook (db : DB) (b : Book) : BookResponse :=
  { id := b.id, title := b.title, rating := b.rating,
    description := b.description, published_year := b.published_year,
    genres := BookRepository.get_book_genres db b.id,
    contributors := BookRepository.get_book_contributors db b.id }

/-- The `BooksListResponse` shape. -/
structure BooksListResponse where
  items : List BookResponse
  total : Nat
  page : Int
  page_size : Int
deriving DecidableEq, Repr

/-- Embeds `BookService.get_books_list`: clamp page/page_size, normalize
sort/order through the enums, delegate to the repository, hydrate each
row. -/
def BookService.get_books_list (db : DB) (page page_size : Int)
    (sort order : String) (q : Option String) (genre_id : Option Nat)
    (published_year : Option Int) (rating_min rating_max : Option ℚ) :
    BooksListResponse :=
  let page := if page < 1 then 1 else page
  let page_size := if page_size < 1 ∨ page_size > 100 then 10 else page_size
  let sort := (SortField.ofString sort).value
  let order := (SortOrder.ofString order).value
  let r := BookRepository.get_books_list db page page_size sort order q
    genre_id published_year rating_min rating_max
  { items := r.items.map (hydrateBook db), total := r.total,
    page := page, page_size := page_size }

/-- Embeds `BookService.get_book_by_id`. -/
def BookService.get_book_by_id (db : DB) (book_id : Nat) :
    Option BookResponse :=
  match BookRepository.get_book_by_id db book_id with
  | none => none
  | some b => some (hydrateBook db b)

/-- The tail of `BookService.update_book` after the core-field step:
replace the genre links if `genre_ids is not None`, replace the
contributor links if `contributors is not None`, then re-fetch. -/
def updateLinksAndFetch (db : DB) (book_id : Nat) (u : BookUpdate) :
    Option BookResponse × DB :=
  let db1 := match u.genre_ids with
    | some gids => BookRepository.update_book_genres db book_id gids
    | none => db
  let db2 := match u.contributors with
    | some cs => BookRepository.update_book_contributors db1 book_id cs
    | none => db1
  (BookService.get_book_by_id db2 book_id, db2)

/-- Embeds `BookService.update_book`: if any core field was set, run the
repository update and return `None` on a missing book; otherwise (and
after a successful core update) proceed straight to the link updates and
the final fetch. -/
def BookService.update_book (db : DB) (book_id : Nat) (u : BookUpdate) :
    Option BookResponse × DB :=
  if u.coreSet then
    match BookRepository.update_book db book_id u with
    | (none, db1) => (none, db1)
    | (some _, db1) => updateLinksAndFetch db1 book_id u
  else
    updateLinksAndFetch db book_id u

/-- The `GenresListResponse` shape. -/
structure GenresListResponse where
  items : List Genre
  total : Nat
  page : Int
  page_size : Int
deriving DecidableEq, Repr

/-- Embeds `GenreService.get_genres_list`: the same clamping as the book
service (written out separately in the source), then the repository
query. -/
def GenreService.get_genres_list (db : DB) (page page_size : Int)
    (q : Option String) : GenresListResponse :=
  let page := if page < 1 then 1 else page
  let page_size := if page_size < 1 ∨ page_size > 100 then 10 else page_size
  let r := BookRepository.get_genres_list db page page_size q
  { items := r.items, total := r.total, page := page, page_size := page_size }

/-- The domain error raised by the genre uniqueness guard: a
`ValueError` whose message names the duplicate value. -/
inductive DomainError where
  | conflict (dup : String)
deriving DecidableEq, Repr

/-- Embeds `GenreService.create_genre`: exact-name pre-check; on a hit raise
the conflict naming the duplicate, never touching the store; otherwise
insert (the store-assigned id is passed explicitly). -/
def GenreService.create_genre (db : DB) (newId : Nat) (name : String) :
    Except DomainError (Genre × DB) :=
  match BookRepository.get_genre_by_name db name with
  | some _ => .error (.conflict name)
  | none => .ok (BookRepository.create_genre db newId name)

/-- A partial Genre update (schemas.GenreUpdate): `none` = field
omitted, `some none` = explicit null, `some (some s)` = value. -/
structure GenreUpdate where
  name : Option (Option String) := none
deriving DecidableEq, Repr

/-- Embeds `BookRepository.update_genre` applied to a `dict(exclude_unset=True)`
that the service found non-empty: fetch by id, `None` if absent,
otherwise write the name only when it is non-null. -/
def BookRepository.update_genre (db : DB) (genre_id : Nat)
    (nameValue : Option String) : Option Genre × DB :=
  match db.genres.find? (fun g => g.id = genre_id) with
  | none => (none, db)
  | some g =>
    let g2 := match nameValue with
      | some s => { g with name := s }
      | none => g
    (some g2,
     { db with genres := db.genres.map (fun x => if x.id = genre_id then g2 else x) })

/-- Embeds `GenreService.update_genre`: when the new name is truthy (set,
non-null, non-empty), conflict if a different genre already holds it;
then apply the update (an unset name means an empty update dict, which
short-circuits to a plain fetch). -/
def GenreService.update_genre (db : DB) (genre_id : Nat) (gu : GenreUpdate) :
    Except DomainError (Option Genre × DB) :=
  let hit : Bool :=
    match gu.name with
    | some (some s) =>
      if s.isEmpty then false
      else match BookRepository.get_genre_by_name db s with
        | some g => g.id ≠ genre_id
        | none => false
    | _ => false
  if hit then
    .error (.conflict ((gu.name.getD none).getD ""))
  else
    match gu.name with
    | none => .ok (BookRepository.get_genre_by_id db genre_id, db)
    | some v => .ok (BookRepository.update_genre db genre_id v)

/-! Helper lemmas shared by the claim theorems. -/

/-- Parsing the string form of a sort field returns the field. -/
theorem sortFieldRoundtrip (f : SortField) : SortField.ofString f.value = f := by
  cases f <;> rfl

/-- Parsing the string form of a sort order returns the order. -/
theorem sortOrderRoundtrip (o : SortOrder) : SortOrder.ofString o.value = o := by
  cases o <;> rfl

/-- Sorting preserves length. -/
theorem sortBooks_length (f : SortField) (o : SortOrder) (l : List Book) :
    (sortBooks f o l).length = l.length := by
  cases o <;> simp [sortBooks]

/-- Sorting is a permutation. -/
theorem sortBooks_perm (f : SortField) (o : SortOrder) (l : List Book) :
    (sortBooks f o l).Perm l := by
  cases o <;> simpa [sortBooks] using List.mergeSort_perm ..

/-- For in-range page and page_size the book service's clamps are inert
and the whole listing computes the expected slice of the sorted filtered
rows together with the unpaginated count. -/
theorem books_service_eq (db : DB) (sort order : String) (q : Option String)
    (gid : Option Nat) (py : Option Int) (rmin rmax : Option ℚ)
    (page page_size : Nat) (hp : 1 ≤ page) (h1 : 1 ≤ page_size) (h2 : page_size ≤ 100) :
    BookService.get_books_list db page page_size sort order q gid py rmin rmax =
      { items := (((sortBooks (SortField.ofString sort) (SortOrder.ofString order)
            (filteredRows db q gid py rmin rmax)).drop ((page - 1) * page_size)).take
            page_size).map (hydrateBook db),
        total := (filteredRows db q gid py rmin rmax).length,
        page := page, page_size := page_size } := by
  have hpc : ¬ ((page : Int) < 1) := by omega
  have hsc : ¬ ((page_size : Int) < 1 ∨ (page_size : Int) > 100) := by omega
  have hoff : (((page : Int) - 1) * (page_size : Int)).toNat = (page - 1) * page_size := by
    have h : ((page : Int) - 1) = ((page - 1 : Nat) : Int) := by omega
    rw [h, ← Int.natCast_mul, Int.toNat_natCast]
  simp only [BookService.get_books_list, BookRepository.get_books_list,
    if_neg hpc, if_neg hsc, sortFieldRoundtrip, sortOrderRoundtrip,
    hoff, Int.toNat_natCast]

/-- For in-range page and page_size the genre service computes the
expected slice of the name-sorted filtered genres together with the
unpaginated count. -/
theorem genres_service_eq (db : DB) (q : Option String)
    (page page_size : Nat) (hp : 1 ≤ page) (h1 : 1 ≤ page_size) (h2 : page_size ≤ 100) :
    GenreService.get_genres_list db page page_size q =
      { items := (((genreRows db q).mergeSort (fun a b => a.name ≤ b.name)).drop
            ((page - 1) * page_size)).take page_size,
        total := (genreRows db q).length,
        page := page, page_size := page_size } := by
  have hpc : ¬ ((page : Int) < 1) := by omega
  have hsc : ¬ ((page_size : Int) < 1 ∨ (page_size : Int) > 100) := by omega
  have hoff : (((page : Int) - 1) * (page_size : Int)).toNat = (page - 1) * page_size := by
    have h : ((page : Int) - 1) = ((page - 1 : Nat) : Int) := by omega
    rw [h, ← Int.natCast_mul, Int.toNat_natCast]
  simp only [GenreService.get_genres_list, BookRepository.get_genres_list,
    if_neg hpc, if_neg hsc, hoff, Int.toNat_natCast]

/-- Concatenating the k-sized chunks of a list reassembles the list. -/
theorem flatten_chunks {α : Type} (k : Nat) :
    ∀ (n : Nat) (l : List α), l.length ≤ n * k →
      ((List.range n).map (fun i => (l.drop (i * k)).take k)).flatten = l := by
  intro n
  induction n with
  | zero =>
    intro l hl
    have : l = [] := by
      cases l with
      | nil => rfl
      | cons a t => simp at hl
    simp [this]
  | succ n ih =>
    intro l hl
    rw [Nat.succ_mul] at hl
    rw [List.range_succ_eq_map]
    have hfun : (fun i => (l.drop (Nat.succ i * k)).take k)
        = fun i => ((l.drop k).drop (i * k)).take k := by
      funext i
      rw [List.drop_drop, Nat.succ_mul, Nat.add_comm]
    calc ((0 :: (List.range n).map Nat.succ).map
            (fun i => (l.drop (i * k)).take k)).flatten
        = l.take k ++ (((List.range n).map
            (fun i => ((l.drop k).drop (i * k)).take k)).flatten) := by
          simp only [List.map_cons, List.map_map, List.flatten_cons, Nat.zero_mul,
            List.drop_zero]
          rw [show ((fun i => (l.drop (i * k)).take k) ∘ Nat.succ)
              = fun i => (l.drop (Nat.succ i * k)).take k from rfl, hfun]
      _ = l.take k ++ l.drop k := by
          rw [ih (l.drop k) (by simp only [List.length_drop]; omega)]
      _ = l := List.take_append_drop k l

/-- The ceiling page count covers the whole list. -/
theorem ceil_mul_ge (t k : Nat) (hk : 0 < k) : t ≤ ((t + k - 1) / k) * k := by
  have h1 := Nat.div_add_mod (t + k - 1) k
  have h2 := Nat.mod_lt (t + k - 1) hk
  rw [Nat.mul_comm]
  omega

/-- The empty search string is falsy. -/
theorem truthyStr_empty : truthyStr (some "") = false := by decide

/-- The omitted search string is falsy. -/
theorem truthyStr_none : truthyStr none = false := rfl

/-- C10: Supplying the empty string as the search parameter q to the
books or genres listing applies no filter at all: the full response
(items and total) is identical to the same call with q omitted. -/
theorem C10_empty_query_is_no_filter (db : DB) (page page_size : Int)
    (sort order : String) (gid : Option Nat) (py : Option Int)
    (rmin rmax : Option ℚ) :
    BookService.get_books_list db page page_size sort order (some "") gid py rmin rmax
      = BookService.get_books_list db page page_size sort order none gid py rmin rmax
    ∧ GenreService.get_genres_list db page page_size (some "")
      = GenreService.get_genres_list db page page_size none := by
  have hb : bookConds (some "") py rmin rmax = bookConds none py rmin rmax := by
    funext b
    simp [bookConds, truthyStr_empty, truthyStr_none]
  have hg : genreRows db (some "") = genreRows db none := by
    simp [genreRows, truthyStr_empty, truthyStr_none]
  constructor
  · simp only [BookService.get_books_list, BookRepository.get_books_list,
      filteredRows, hb]
  · simp only [GenreService.get_genres_list, BookRepository.get_genres_list, hg]

/-- Clamping the page is idempotent. -/
theorem clampPage_idem (p : Int) :
    (if (if p < 1 then 1 else p) < 1 then 1 else (if p < 1 then 1 else p))
      = (if p < 1 then (1 : Int) else p) := by
  split_ifs <;> omega

/-- Clamping the page size is idempotent. -/
theorem clampSize_idem (s : Int) :
    (if ((if s < 1 ∨ s > 100 then 10 else s) < 1 ∨ (if s < 1 ∨ s > 100 then 10 else s) > 100)
      then 10 else (if s < 1 ∨ s > 100 then 10 else s))
      = (if s < 1 ∨ s > 100 then (10 : Int) else s) := by
  by_cases h : s < 1 ∨ s > 100
  · rw [if_pos h]
    norm_num
  · rw [if_neg h, if_neg h]

/-- C4: Any integer page and page_size supplied to the books or genres
listing are normalized identically and silently: page below 1 acts as
page 1, page_size outside 1..100 acts as 10, and both services apply the
very same clamping (calling either service on raw values equals calling
it on the clamped values, and the echoed page/page_size fields are the
clamped ones). -/
theorem C4_pagination_clamping (db : DB) (page page_size : Int)
    (sort order : String) (q : Option String) (gid : Option Nat)
    (py : Option Int) (rmin rmax : Option ℚ) :
    (BookService.get_books_list db page page_size sort order q gid py rmin rmax
       = BookService.get_books_list db (if page < 1 then 1 else page)
           (if page_size < 1 ∨ page_size > 100 then 10 else page_size)
           sort order q gid py rmin rmax)
    ∧ (BookService.get_books_list db page page_size sort order q gid py rmin rmax).page
        = (if page < 1 then 1 else page)
    ∧ (BookService.get_books_list db page page_size sort order q gid py rmin rmax).page_size
        = (if page_size < 1 ∨ page_size > 100 then 10 else page_size)
    ∧ (GenreService.get_genres_list db page page_size q
       = GenreService.get_genres_list db (if page < 1 then 1 else page)
           (if page_size < 1 ∨ page_size > 100 then 10 else page_size) q)
    ∧ (GenreService.get_genres_list db page page_size q).page
        = (if page < 1 then 1 else page)
    ∧ (GenreService.get_genres_list db page page_size q).page_size
        = (if page_size < 1 ∨ page_size > 100 then 10 else page_size) := by
  refine ⟨?_, ?_, ?_, ?_, ?_, ?_⟩ <;>
    simp only [BookService.get_books_list, GenreService.get_genres_list,
      clampPage_idem, clampSize_idem]

/-- The title comparison is transitive. -/
theorem sortLe_title_trans (a b c : Book) (h1 : sortLe .title a b = true)
    (h2 : sortLe .title b c = true) : sortLe .title a c = true := by
  simp only [sortLe, decide_eq_true_eq] at h1 h2 ⊢
  exact le_trans h1 h2

/-- The title comparison is total. -/
theorem sortLe_title_total (a b : Book) :
    (sortLe .title a b || sortLe .title b a) = true := by
  simp only [sortLe, Bool.or_eq_true, decide_eq_true_eq]
  exact le_total a.title b.title

/-- C5: Invalid sort/order strings are silently normalized, never an
error: any string outside the three sort fields parses to title, any
string outside asc/desc parses to asc, the parse functions always land
in the enumerations, the listing called with sort and order both "bogus"
returns exactly the title-ascending result, and that result's items are
ordered by title ascending. -/
theorem C5_sort_fallback :
    (∀ s : String, s ≠ "title" → s ≠ "rating" → s ≠ "published_year" →
       SortField.ofString s = .title)
    ∧ (∀ s : String, s ≠ "asc" → s ≠ "desc" → SortOrder.ofString s = .asc)
    ∧ (∀ s : String, SortField.ofString s = .title ∨ SortField.ofString s = .rating
         ∨ SortField.ofString s = .published_year)
    ∧ (∀ s : String, SortOrder.ofString s = .asc ∨ SortOrder.ofString s = .desc)
    ∧ (∀ (db : DB) (page page_size : Int) (q : Option String) (gid : Option Nat)
         (py : Option Int) (rmin rmax : Option ℚ),
        BookService.get_books_list db page page_size "bogus" "bogus" q gid py rmin rmax
          = BookService.get_books_list db page page_size "title" "asc" q gid py rmin rmax)
    ∧ (∀ (db : DB) (page page_size : Int) (q : Option String) (gid : Option Nat)
         (py : Option Int) (rmin rmax : Option ℚ),
        List.Pairwise (fun a b : BookResponse => a.title ≤ b.title)
          (BookService.get_books_list db page page_size "bogus" "bogus" q gid py
            rmin rmax).items) := by
  have hbogusF : SortField.ofString "bogus" = .title := by rfl
  have hbogusO : SortOrder.ofString "bogus" = .asc := by rfl
  have htitle : SortField.ofString "title" = .title := by rfl
  have hasc : SortOrder.ofString "asc" = .asc := by rfl
  refine ⟨?_, ?_, ?_, ?_, ?_, ?_⟩
  · intro s h1 h2 h3
    simp only [SortField.ofString, if_neg h1, if_neg h2, if_neg h3]
  · intro s h1 h2
    simp only [SortOrder.ofString, if_neg h1, if_neg h2]
  · intro s
    unfold SortField.ofString
    split_ifs <;> simp
  · intro s
    unfold SortOrder.ofString
    split_ifs <;> simp
  · intro db page page_size q gid py rmin rmax
    simp only [BookService.get_books_list, hbogusF, hbogusO, htitle, hasc]
  · intro db page page_size q gid py rmin rmax
    simp only [BookService.get_books_list, BookRepository.get_books_list,
      hbogusF, hbogusO, SortField.value, SortOrder.value]
    have hsorted : List.Pairwise (fun a b : Book => sortLe .title a b = true)
        (sortBooks (SortField.ofString "title") (SortOrder.ofString "asc")
          (filteredRows db q gid py rmin rmax)) := by
      simp only [sortBooks, SortField.ofString, SortOrder.ofString, if_pos rfl]
      exact List.sorted_mergeSort sortLe_title_trans sortLe_title_total _
    rw [List.pairwise_map]
    refine List.Pairwise.imp ?_
      (List.Pairwise.sublist
        (List.Sublist.trans (List.take_sublist _ _) (List.drop_sublist _ _)) hsorted)
    intro a b h
    simpa [hydrateBook, sortLe, decide_eq_true_eq] using h

/-- C5 witness: the fallback theorem instantiated at the string "bogus". -/
theorem C5_sort_fallback_witness : SortField.ofString "bogus" = .title :=
  C5_sort_fallback.1 "bogus" (by decide) (by decide) (by decide)

/-- C9: A core field supplied as an explicit null in a Book update is
skipped by the write loop — the stored value of that field is unchanged,
so no core field can be cleared to null through update — and a field
omitted from the request is equally untouched; the updated row stored in
the table is exactly the prior row with the non-null supplied fields
overwritten. -/
theorem C9_null_fields_untouched (db : DB) (book_id : Nat) (u : BookUpdate)
    (b : Book) (hb : db.books.find? (fun x => x.id = book_id) = some b) :
    (BookRepository.update_book db book_id u).1 = some (applyCoreUpdate b u)
    ∧ (BookRepository.update_book db book_id u).2.books
        = db.books.map (fun x => if x.id = book_id then applyCoreUpdate b u else x)
    ∧ (u.title = some none → (applyCoreUpdate b u).title = b.title)
    ∧ (u.rating = some none → (applyCoreUpdate b u).rating = b.rating)
    ∧ (u.description = some none → (applyCoreUpdate b u).description = b.description)
    ∧ (u.published_year = some none →
         (applyCoreUpdate b u).published_year = b.published_year)
    ∧ (u.title = none → (applyCoreUpdate b u).title = b.title)
    ∧ (u.rating = none → (applyCoreUpdate b u).rating = b.rating)
    ∧ (u.description = none → (applyCoreUpdate b u).description = b.description)
    ∧ (u.published_year = none →
         (applyCoreUpdate b u).published_year = b.published_year)
    ∧ (∀ v, u.title = some (some v) → (applyCoreUpdate b u).title = v)
    ∧ (∀ v, u.rating = some (some v) → (applyCoreUpdate b u).rating = some v) := by
  refine ⟨?_, ?_, ?_, ?_, ?_, ?_, ?_, ?_, ?_, ?_, ?_, ?_⟩
  · simp [BookRepository.update_book, hb]
  · simp [BookRepository.update_book, hb]
  all_goals intro h
  all_goals try simp [applyCoreUpdate, h]
  all_goals intro hv
  all_goals simp [applyCoreUpdate, hv]

/-- C9 witness: an update of an existing book that supplies an explicit
null title and rating leaves both stored values intact. -/
theorem C9_null_fields_untouched_witness :
    (BookRepository.update_book
      { books := [{ id := 1, title := "Alpha", rating := some 5,
                    description := none, published_year := some 1999 }],
        genres := [], bookGenres := [], contributors := [], bookContributors := [] }
      1 { title := some none, rating := some none }).1
      = some (applyCoreUpdate
          { id := 1, title := "Alpha", rating := some 5,
            description := none, published_year := some 1999 }
          { title := some none, rating := some none }) :=
  (C9_null_fields_untouched _ 1 _ _ (by decide)).1

/-- C6: Creating a Genre whose exact (case-sensitive) name already
exists fails with a domain conflict naming the duplicate value and the
insert is never attempted (an error result carries no store change);
renaming a genre to a non-empty name whose only holders are the genre
itself is not a conflict; renaming it to a non-empty name held only by
other genres fails with the same conflict. -/
theorem C6_genre_name_uniqueness (db : DB) (newId gid : Nat) (s : String) :
    ((∃ g ∈ db.genres, g.name = s) →
       GenreService.create_genre db newId s = .error (.conflict s))
    ∧ (s ≠ "" → (∀ g ∈ db.genres, g.name = s → g.id = gid) →
        ∃ r, GenreService.update_genre db gid { name := some (some s) } = .ok r)
    ∧ (s ≠ "" → (∃ g ∈ db.genres, g.name = s) →
        (∀ g ∈ db.genres, g.name = s → g.id ≠ gid) →
        GenreService.update_genre db gid { name := some (some s) }
          = .error (.conflict s)) := by
  have hEmpty : ∀ t : String, t ≠ "" → t.isEmpty = false := by
    intro t ht
    cases hi : t.isEmpty with
    | false => rfl
    | true => exact absurd ((String.isEmpty_iff t).mp hi) ht
  refine ⟨?_, ?_, ?_⟩
  · rintro ⟨g, hg, hname⟩
    have hsome : (db.genres.find? (fun x => x.name = s)).isSome :=
      List.find?_isSome.mpr ⟨g, hg, by simp [hname]⟩
    cases hfind : db.genres.find? (fun x => x.name = s) with
    | none => rw [hfind] at hsome; simp at hsome
    | some g0 =>
      simp only [GenreService.create_genre, BookRepository.get_genre_by_name, hfind]
  · intro hs hown
    cases hfind : db.genres.find? (fun x => x.name = s) with
    | none =>
      simp only [GenreService.update_genre, BookRepository.get_genre_by_name,
        hfind, hEmpty s hs]
      simp
    | some g0 =>
      have hmem := List.mem_of_find?_eq_some hfind
      have hname : g0.name = s := by
        have := List.find?_some hfind
        simpa using this
      have hid : g0.id = gid := hown g0 hmem hname
      simp only [GenreService.update_genre, BookRepository.get_genre_by_name,
        hfind, hEmpty s hs, hid]
      simp
  · rintro hs ⟨g, hg, hname⟩ hdiff
    have hsome : (db.genres.find? (fun x => x.name = s)).isSome :=
      List.find?_isSome.mpr ⟨g, hg, by simp [hname]⟩
    cases hfind : db.genres.find? (fun x => x.name = s) with
    | none => rw [hfind] at hsome; simp at hsome
    | some g0 =>
      have hmem := List.mem_of_find?_eq_some hfind
      have hname0 : g0.name = s := by
        have := List.find?_some hfind
        simpa using this
      have hid : g0.id ≠ gid := hdiff g0 hmem hname0
      simp only [GenreService.update_genre, BookRepository.get_genre_by_name,
        hfind, hEmpty s hs]
      simp [hid]

/-- C6 witness: with genres Fantasy (id 10) and Sci-Fi (id 11), creating
another Fantasy conflicts naming Fantasy, renaming Sci-Fi to itself does
not conflict, renaming Sci-Fi to Fantasy conflicts. -/
theorem C6_genre_name_uniqueness_witness :
    GenreService.create_genre
      { books := [], genres := [{ id := 10, name := "Fantasy" }, { id := 11, name := "Sci-Fi" }],
        bookGenres := [], contributors := [], bookContributors := [] }
      12 "Fantasy" = .error (.conflict "Fantasy")
    ∧ (∃ r, GenreService.update_genre
        { books := [], genres := [{ id := 10, name := "Fantasy" }, { id := 11, name := "Sci-Fi" }],
          bookGenres := [], contributors := [], bookContributors := [] }
        11 { name := some (some "Sci-Fi") } = .ok r)
    ∧ GenreService.update_genre
        { books := [], genres := [{ id := 10, name := "Fantasy" }, { id := 11, name := "Sci-Fi" }],
          bookGenres := [], contributors := [], bookContributors := [] }
        11 { name := some (some "Fantasy") } = .error (.conflict "Fantasy") :=
  ⟨(C6_genre_name_uniqueness _ 12 11 "Fantasy").1 (by decide),
   (C6_genre_name_uniqueness _ 12 11 "Sci-Fi").2.1 (by decide) (by decide),
   (C6_genre_name_uniqueness _ 12 11 "Fantasy").2.2 (by decide) (by decide) (by decide)⟩

/-- C8: The rating bounds are inclusive and independently optional: for
a book whose rating is r, with both bounds supplied the predicate is
exactly lo ≤ r and r ≤ hi; with only one bound supplied it is that
single inequality; with neither it is true; and filtering with the two
bounds equal to the same x returns exactly the books whose rating equals
x. -/
theorem C8_rating_range_inclusive (db : DB) (b : Book) (r lo hi x : ℚ)
    (hb : b.rating = some r) :
    (bookConds none none (some lo) (some hi) b
       = (decide (lo ≤ r) && decide (r ≤ hi)))
    ∧ (bookConds none none (some lo) none b = decide (lo ≤ r))
    ∧ (bookConds none none none (some hi) b = decide (r ≤ hi))
    ∧ (bookConds none none none none b = true)
    ∧ (filteredRows db none none none (some x) (some x)
        = db.books.filter (fun bk => bk.rating = some x)) := by
  refine ⟨?_, ?_, ?_, ?_, ?_⟩
  · simp [bookConds, truthyStr, truthyInt, ratingGe, ratingLe, hb]
  · simp [bookConds, truthyStr, truthyInt, ratingGe, ratingLe, hb]
  · simp [bookConds, truthyStr, truthyInt, ratingGe, ratingLe, hb]
  · simp [bookConds, truthyStr, truthyInt, ratingGe, ratingLe, hb]
  · unfold filteredRows baseRows
    congr 1
    funext bk
    cases hk : bk.rating with
    | none => simp [bookConds, truthyStr, truthyInt, ratingGe, ratingLe, hk]
    | some v =>
      simp only [bookConds, truthyStr, truthyInt, ratingGe, ratingLe, hk]
      by_cases h1 : x ≤ v
      · by_cases h2 : v ≤ x
        · have : v = x := le_antisymm h2 h1
          simp [h1, h2, this]
        · have : ¬ v = x := fun e => h2 (le_of_eq e)
          simp [h1, h2, this]
      · have : ¬ v = x := fun e => h1 (le_of_eq e.symm)
        simp [h1, this]

/-- C8 witness: a book rated exactly 5 satisfies the double bound 5..5,
and the 5..5 filter over a two-book table keeps exactly that book. -/
theorem C8_rating_range_inclusive_witness :
    bookConds none none (some 5) (some 5)
      { id := 1, title := "Alpha", rating := some 5,
        description := none, published_year := none }
      = (decide ((5:ℚ) ≤ 5) && decide ((5:ℚ) ≤ 5)) :=
  (C8_rating_range_inclusive
    { books := [], genres := [], bookGenres := [], contributors := [],
      bookContributors := [] }
    { id := 1, title := "Alpha", rating := some 5,
      description := none, published_year := none }
    5 5 5 5 rfl).1

/-- The net effect of a service book update on the three affected
tables, for an existing book: links are wholly replaced exactly when the
corresponding list was supplied, and the book row is rewritten exactly
when some core field was set. -/
theorem update_book_tables (db : DB) (book_id : Nat) (u : BookUpdate) (b : Book)
    (hb : db.books.find? (fun x => x.id = book_id) = some b) :
    (BookService.update_book db book_id u).2.bookGenres
      = (match u.genre_ids with
         | some l => db.bookGenres.filter (fun bg => bg.book_id ≠ book_id)
             ++ l.map (fun g => { book_id := book_id, genre_id := g })
         | none => db.bookGenres)
    ∧ (BookService.update_book db book_id u).2.bookContributors
      = (match u.contributors with
         | some cs => db.bookContributors.filter (fun bc => bc.book_id ≠ book_id)
             ++ cs.map (fun c =>
                 { book_id := book_id, contributor_id := c.1, role := c.2 })
         | none => db.bookContributors)
    ∧ (BookService.update_book db book_id u).2.books
      = (if u.coreSet then
          db.books.map (fun x => if x.id = book_id then applyCoreUpdate b u else x)
         else db.books) := by
  cases hg : u.genre_ids <;> cases hcs : u.contributors <;>
    by_cases hc : u.coreSet <;>
      simp [BookService.update_book, hc, BookRepository.update_book, hb,
        updateLinksAndFetch, hg, hcs, BookRepository.update_book_genres,
        BookRepository.update_book_contributors]

/-- Splitting a delete-then-insert link table by book id: the rows of
the written book are exactly the inserted ones, the rows of every other
book are untouched. -/
theorem filter_replaced_genre_links (orig : List BookGenre) (book_id : Nat)
    (l : List Nat) :
    ((orig.filter (fun bg => bg.book_id ≠ book_id)
        ++ l.map (fun g => ({ book_id := book_id, genre_id := g } : BookGenre))).filter
       (fun bg => bg.book_id = book_id))
      = l.map (fun g => { book_id := book_id, genre_id := g })
    ∧ ((orig.filter (fun bg => bg.book_id ≠ book_id)
        ++ l.map (fun g => ({ book_id := book_id, genre_id := g } : BookGenre))).filter
       (fun bg => bg.book_id ≠ book_id))
      = orig.filter (fun bg => bg.book_id ≠ book_id) := by
  constructor
  · rw [List.filter_append]
    have h1 : (orig.filter (fun bg => bg.book_id ≠ book_id)).filter
        (fun bg => bg.book_id = book_id) = [] := by
      rw [List.filter_eq_nil_iff]
      intro bg hbg
      have := (List.mem_filter.mp hbg).2
      simp at this ⊢
      exact this
    have h2 : (l.map (fun g => ({ book_id := book_id, genre_id := g } : BookGenre))).filter
        (fun bg => bg.book_id = book_id)
        = l.map (fun g => ({ book_id := book_id, genre_id := g } : BookGenre)) := by
      rw [List.filter_eq_self]
      intro bg hbg
      obtain ⟨g, _, hg⟩ := List.mem_map.mp hbg
      simp [← hg]
    rw [h1, h2, List.nil_append]
  · rw [List.filter_append]
    have h1 : (orig.filter (fun bg => bg.book_id ≠ book_id)).filter
        (fun bg => bg.book_id ≠ book_id) = orig.filter (fun bg => bg.book_id ≠ book_id) := by
      rw [List.filter_eq_self]
      intro bg hbg
      exact (List.mem_filter.mp hbg).2
    have h2 : (l.map (fun g => ({ book_id := book_id, genre_id := g } : BookGenre))).filter
        (fun bg => bg.book_id ≠ book_id) = [] := by
      rw [List.filter_eq_nil_iff]
      intro bg hbg
      obtain ⟨g, _, hg⟩ := List.mem_map.mp hbg
      simp [← hg]
    rw [h1, h2, List.append_nil]

/-- Splitting a delete-then-insert contributor link table by book id. -/
theorem filter_replaced_contrib_links (orig : List BookContributor) (book_id : Nat)
    (cs : List (Nat × Role)) :
    ((orig.filter (fun bc => bc.book_id ≠ book_id)
        ++ cs.map (fun c => ({ book_id := book_id, contributor_id := c.1, role := c.2 } : BookContributor))).filter
       (fun bc => bc.book_id = book_id))
      = cs.map (fun c => { book_id := book_id, contributor_id := c.1, role := c.2 })
    ∧ ((orig.filter (fun bc => bc.book_id ≠ book_id)
        ++ cs.map (fun c => ({ book_id := book_id, contributor_id := c.1, role := c.2 } : BookContributor))).filter
       (fun bc => bc.book_id ≠ book_id))
      = orig.filter (fun bc => bc.book_id ≠ book_id) := by
  constructor
  · rw [List.filter_append]
    have h1 : (orig.filter (fun bc => bc.book_id ≠ book_id)).filter
        (fun bc => bc.book_id = book_id) = [] := by
      rw [List.filter_eq_nil_iff]
      intro bc hbc
      have := (List.mem_filter.mp hbc).2
      simp at this ⊢
      exact this
    have h2 : (cs.map (fun c => ({ book_id := book_id, contributor_id := c.1, role := c.2 } : BookContributor))).filter (fun bc => bc.book_id = book_id)
        = cs.map (fun c => ({ book_id := book_id, contributor_id := c.1, role := c.2 } : BookContributor)) := by
      rw [List.filter_eq_self]
      intro bc hbc
      obtain ⟨c, _, hc⟩ := List.mem_map.mp hbc
      simp [← hc]
    rw [h1, h2, List.nil_append]
  · rw [List.filter_append]
    have h1 : (orig.filter (fun bc => bc.book_id ≠ book_id)).filter
        (fun bc => bc.book_id ≠ book_id) = orig.filter (fun bc => bc.book_id ≠ book_id) := by
      rw [List.filter_eq_self]
      intro bc hbc
      exact (List.mem_filter.mp hbc).2
    have h2 : (cs.map (fun c => ({ book_id := book_id, contributor_id := c.1, role := c.2 } : BookContributor))).filter (fun bc => bc.book_id ≠ book_id) = [] := by
      rw [List.filter_eq_nil_iff]
      intro bc hbc
      obtain ⟨c, _, hc⟩ := List.mem_map.mp hbc
      simp [← hc]
    rw [h1, h2, List.append_nil]

/-- C3: For an existing book, an update that supplies genre_ids
(respectively contributors) replaces the book's entire link set with
exactly the supplied entries while leaving other books' links untouched;
omitting the list leaves the link table entirely unchanged; and
supplying genre_ids as the empty list removes all the book's genre links,
so the response returned by the update itself shows genres = []. -/
theorem C3_replace_set_semantics (db : DB) (book_id : Nat) (u : BookUpdate)
    (b : Book) (hb : db.books.find? (fun x => x.id = book_id) = some b) :
    (∀ l, u.genre_ids = some l →
       ((BookService.update_book db book_id u).2.bookGenres.filter
           (fun bg => bg.book_id = book_id)
         = l.map (fun g => { book_id := book_id, genre_id := g })
        ∧ (BookService.update_book db book_id u).2.bookGenres.filter
            (fun bg => bg.book_id ≠ book_id)
          = db.bookGenres.filter (fun bg => bg.book_id ≠ book_id)))
    ∧ (u.genre_ids = none →
        (BookService.update_book db book_id u).2.bookGenres = db.bookGenres)
    ∧ (∀ cs, u.contributors = some cs →
       ((BookService.update_book db book_id u).2.bookContributors.filter
           (fun bc => bc.book_id = book_id)
         = cs.map (fun c => { book_id := book_id, contributor_id := c.1, role := c.2 })
        ∧ (BookService.update_book db book_id u).2.bookContributors.filter
            (fun bc => bc.book_id ≠ book_id)
          = db.bookContributors.filter (fun bc => bc.book_id ≠ book_id)))
    ∧ (u.contributors = none →
        (BookService.update_book db book_id u).2.bookContributors = db.bookContributors)
    ∧ (∃ r, (BookService.update_book db book_id { genre_ids := some [] }).1 = some r
          ∧ r.genres = []) := by
  obtain ⟨hG, hC, hB⟩ := update_book_tables db book_id u b hb
  refine ⟨?_, ?_, ?_, ?_, ?_⟩
  · intro l hl
    rw [hG, hl]
    exact filter_replaced_genre_links db.bookGenres book_id l
  · intro hl
    rw [hG, hl]
  · intro cs hcs
    rw [hC, hcs]
    exact filter_replaced_contrib_links db.bookContributors book_id cs
  · intro hcs
    rw [hC, hcs]
  · have hbid : b.id = book_id := by
      have := List.find?_some hb
      simpa using this
    obtain ⟨hG0, hC0, hB0⟩ :=
      update_book_tables db book_id { genre_ids := some [] } b hb
    have hcore : BookUpdate.coreSet { genre_ids := some [] } = false := rfl
    rw [hcore] at hB0
    simp only [if_false, Bool.false_eq_true] at hB0
    refine ⟨hydrateBook (BookService.update_book db book_id
      { genre_ids := some [] }).2 b, ?_, ?_⟩
    · have : (BookService.update_book db book_id { genre_ids := some [] }).1
          = BookService.get_book_by_id
              (BookService.update_book db book_id { genre_ids := some [] }).2 book_id := by
        simp [BookService.update_book, hcore, updateLinksAndFetch]
      rw [this]
      simp only [BookService.get_book_by_id, BookRepository.get_book_by_id, hB0, hb]
    · simp only [hydrateBook]
      rw [List.eq_nil_iff_forall_not_mem]
      intro g hg
      rw [BookRepository.get_book_genres, List.mem_flatMap] at hg
      obtain ⟨g0, hg0, hmem⟩ := hg
      rw [List.mem_filterMap] at hmem
      obtain ⟨bg, hbg, heq⟩ := hmem
      rw [hG0] at hbg
      simp only [List.map_nil, List.append_nil] at hbg
      have hne := (List.mem_filter.mp hbg).2
      by_cases hcond : bg.genre_id = g0.id ∧ bg.book_id = b.id
      · rw [hbid] at hcond
        simp [hcond.2] at hne
      · rw [if_neg hcond] at heq
        exact Option.noConfusion heq

/-- C3 witness: for book 1 with one existing Fantasy link, the empty
genre_ids update leaves the returned response with genres = []. -/
theorem C3_replace_set_semantics_witness :
    ∃ r, (BookService.update_book
      { books := [{ id := 1, title := "Alpha", rating := none,
                    description := none, published_year := none }],
        genres := [{ id := 10, name := "Fantasy" }],
        bookGenres := [{ book_id := 1, genre_id := 10 }],
        contributors := [], bookContributors := [] }
      1 { genre_ids := some [] }).1 = some r ∧ r.genres = [] :=
  (C3_replace_set_semantics _ 1 { genre_ids := some [] }
    { id := 1, title := "Alpha", rating := none, description := none, published_year := none }
    (by decide)).2.2.2.2

/-- C2 counterexample: updating a nonexistent book id supplying only
genre_ids performs the link mutation anyway — the genre-link table
changes (an orphan row for the missing book appears) even though the
operation still reports not-found — refuting the claim that no link
mutation is attempted regardless of which fields the request supplies. -/
theorem C2_update_missing_book_counterexample :
    BookRepository.get_book_by_id
      { books := [], genres := [{ id := 10, name := "Fantasy" }],
        bookGenres := [], contributors := [], bookContributors := [] } 99 = none
    ∧ (BookService.update_book
        { books := [], genres := [{ id := 10, name := "Fantasy" }],
          bookGenres := [], contributors := [], bookContributors := [] }
        99 { genre_ids := some [10] }).2.bookGenres
        = [{ book_id := 99, genre_id := 10 }]
    ∧ ([{ book_id := 99, genre_id := 10 }] : List BookGenre) ≠ []
    ∧ (BookService.update_book
        { books := [], genres := [{ id := 10, name := "Fantasy" }],
          bookGenres := [], contributors := [], bookContributors := [] }
        99 { genre_ids := some [10] }).1 = none := by
  refine ⟨rfl, rfl, by decide, rfl⟩

/-- C2 amended: when the update request sets at least one core field,
a nonexistent book id makes the whole update return the not-found
signal with the store — link tables included — completely unchanged;
the guard is skipped only by requests that supply nothing but
genre_ids/contributors. -/
theorem C2_update_missing_book_amended (db : DB) (book_id : Nat) (u : BookUpdate)
    (hmiss : BookRepository.get_book_by_id db book_id = none)
    (hcore : u.coreSet = true) :
    BookService.update_book db book_id u = (none, db) := by
  have hfind : db.books.find? (fun x => x.id = book_id) = none := hmiss
  simp [BookService.update_book, hcore, BookRepository.update_book, hfind]

/-- C2 witness: a core-field update of a missing book on an empty store
returns not-found and changes nothing. -/
theorem C2_update_missing_book_amended_witness :
    BookService.update_book
      { books := [], genres := [], bookGenres := [], contributors := [],
        bookContributors := [] } 5 { title := some (some "Alpha") }
      = (none,
         { books := [], genres := [], bookGenres := [], contributors := [],
           bookContributors := [] }) :=
  C2_update_missing_book_amended _ 5 _ rfl rfl

/-- Sorting the empty row list yields the empty list. -/
theorem sortBooks_nil (f : SortField) (o : SortOrder) : sortBooks f o [] = [] := by
  cases o <;> simp [sortBooks]

/-- Membership in the genre-joined FROM clause: a book row occurs iff it
is a stored book linked to the requested genre (assuming referential
integrity of the link table's genre side). -/
theorem mem_baseRows (db : DB) (gid : Nat) (b : Book)
    (hint : ∀ bg ∈ db.bookGenres, ∃ g ∈ db.genres, g.id = bg.genre_id) :
    b ∈ baseRows db (some gid)
      ↔ (b ∈ db.books ∧ ∃ bg ∈ db.bookGenres, bg.book_id = b.id ∧ bg.genre_id = gid) := by
  simp only [baseRows, List.mem_flatMap]
  constructor
  · rintro ⟨b0, hb0, bg, hbg, hmem⟩
    by_cases hbid : bg.book_id = b0.id
    · rw [if_pos hbid] at hmem
      rw [List.mem_filterMap] at hmem
      obtain ⟨g, _, heq⟩ := hmem
      by_cases hcond : bg.genre_id = g.id ∧ g.id = gid
      · rw [if_pos hcond] at heq
        injection heq with heq'
        subst heq'
        exact ⟨hb0, bg, hbg, hbid, by rw [hcond.1, hcond.2]⟩
      · rw [if_neg hcond] at heq
        exact Option.noConfusion heq
    · rw [if_neg hbid] at hmem
      exact absurd hmem (List.not_mem_nil _)
  · rintro ⟨hbmem, bg, hbg, hbid, hgid⟩
    obtain ⟨g, hg, hgidg⟩ := hint bg hbg
    refine ⟨b, hbmem, bg, hbg, ?_⟩
    rw [if_pos hbid, List.mem_filterMap]
    exact ⟨g, hg, by rw [if_pos ⟨hgidg.symm, hgidg.trans hgid⟩]⟩

/-- C7: Under referential integrity of the link table, a book occurs in
the genre-filtered row set iff a genre-link row connects it to that
genre (and it passes the other filters); a book with no genre links is
excluded from every genre-filtered result; and a genre id linked to zero
books yields items = [] and total = 0 from the listing, not an error. -/
theorem C7_genre_filter_join (db : DB) (gid : Nat) (q : Option String)
    (py : Option Int) (rmin rmax : Option ℚ)
    (hint : ∀ bg ∈ db.bookGenres, ∃ g ∈ db.genres, g.id = bg.genre_id) :
    (∀ b : Book, b ∈ filteredRows db q (some gid) py rmin rmax
       ↔ (b ∈ db.books ∧ bookConds q py rmin rmax b = true
            ∧ ∃ bg ∈ db.bookGenres, bg.book_id = b.id ∧ bg.genre_id = gid))
    ∧ (∀ b : Book, (∀ bg ∈ db.bookGenres, bg.book_id ≠ b.id) →
        b ∉ filteredRows db q (some gid) py rmin rmax)
    ∧ ((∀ bg ∈ db.bookGenres, bg.genre_id ≠ gid) →
        ∀ (page page_size : Int) (sort order : String),
          (BookService.get_books_list db page page_size sort order q (some gid)
            py rmin rmax).items = []
          ∧ (BookService.get_books_list db page page_size sort order q (some gid)
            py rmin rmax).total = 0) := by
  have hiff : ∀ b : Book, b ∈ filteredRows db q (some gid) py rmin rmax
      ↔ (b ∈ db.books ∧ bookConds q py rmin rmax b = true
           ∧ ∃ bg ∈ db.bookGenres, bg.book_id = b.id ∧ bg.genre_id = gid) := by
    intro b
    rw [filteredRows, List.mem_filter, mem_baseRows db gid b hint]
    tauto
  refine ⟨hiff, ?_, ?_⟩
  · intro b hnolink hbmem
    obtain ⟨_, _, bg, hbg, hbid, _⟩ := (hiff b).mp hbmem
    exact hnolink bg hbg hbid
  · intro h0 page page_size sort order
    have hrows : filteredRows db q (some gid) py rmin rmax = [] := by
      rw [List.eq_nil_iff_forall_not_mem]
      intro b hbmem
      obtain ⟨_, _, bg, hbg, _, hgid⟩ := (hiff b).mp hbmem
      exact h0 bg hbg hgid
    constructor <;>
      simp [BookService.get_books_list, BookRepository.get_books_list, hrows,
        sortBooks_nil]

/-- C7 witness: with one book linked only to genre 10, filtering the
listing by genre 99 returns empty items and zero total. -/
theorem C7_genre_filter_join_witness :
    (BookService.get_books_list
      { books := [{ id := 1, title := "Alpha", rating := none,
                    description := none, published_year := none }],
        genres := [{ id := 10, name := "Fantasy" }],
        bookGenres := [{ book_id := 1, genre_id := 10 }],
        contributors := [], bookContributors := [] }
      1 10 "title" "asc" none (some 99) none none none).items = []
    ∧ (BookService.get_books_list
      { books := [{ id := 1, title := "Alpha", rating := none,
                    description := none, published_year := none }],
        genres := [{ id := 10, name := "Fantasy" }],
        bookGenres := [{ book_id := 1, genre_id := 10 }],
        contributors := [], bookContributors := [] }
      1 10 "title" "asc" none (some 99) none none none).total = 0 :=
  (C7_genre_filter_join _ 99 none none none none (by decide)).2.2 (by decide)
    1 10 "title" "asc"

/-- C1: For page at least 1 and page_size in 1..100, the books listing
returns at most page_size items; total equals the exact number of rows
satisfying the same filters with pagination ignored; the sorted result
order is a permutation of those rows; and concatenating the item lists
of pages 1 through the ceiling of total divided by page_size reproduces
the whole sorted filtered row list (hydrated) — every matching row
appears exactly once, none repeated, none skipped. -/
theorem C1_books_pagination (db : DB) (sort order : String) (q : Option String)
    (gid : Option Nat) (py : Option Int) (rmin rmax : Option ℚ)
    (page page_size : Nat) (hp : 1 ≤ page) (h1 : 1 ≤ page_size) (h2 : page_size ≤ 100) :
    (BookService.get_books_list db page page_size sort order q gid py rmin rmax).items.length
        ≤ page_size
    ∧ (BookService.get_books_list db page page_size sort order q gid py rmin rmax).total
        = (filteredRows db q gid py rmin rmax).length
    ∧ (sortBooks (SortField.ofString sort) (SortOrder.ofString order)
         (filteredRows db q gid py rmin rmax)).Perm (filteredRows db q gid py rmin rmax)
    ∧ ((List.range (((filteredRows db q gid py rmin rmax).length + page_size - 1)
          / page_size)).map
          (fun i => (BookService.get_books_list db ((i + 1 : Nat) : Int) page_size sort
              order q gid py rmin rmax).items)).flatten
        = (sortBooks (SortField.ofString sort) (SortOrder.ofString order)
             (filteredRows db q gid py rmin rmax)).map (hydrateBook db) := by
  refine ⟨?_, ?_, sortBooks_perm _ _ _, ?_⟩
  · rw [books_service_eq db sort order q gid py rmin rmax page page_size hp h1 h2]
    simp only [List.length_map, List.length_take]
    exact inf_le_left
  · rw [books_service_eq db sort order q gid py rmin rmax page page_size hp h1 h2]
  · have hmapeq : ∀ i ∈ List.range (((filteredRows db q gid py rmin rmax).length
        + page_size - 1) / page_size),
        (BookService.get_books_list db ((i + 1 : Nat) : Int) page_size sort order q gid
            py rmin rmax).items
          = (((sortBooks (SortField.ofString sort) (SortOrder.ofString order)
              (filteredRows db q gid py rmin rmax)).map (hydrateBook db)).drop
                (i * page_size)).take page_size := by
      intro i _
      rw [books_service_eq db sort order q gid py rmin rmax (i + 1) page_size
        (Nat.succ_le_succ (Nat.zero_le i)) h1 h2]
      simp only [Nat.add_sub_cancel]
      rw [List.map_take, List.map_drop]
    rw [List.map_congr_left hmapeq]
    apply flatten_chunks
    simp only [List.length_map]
    rw [sortBooks_length]
    exact ceil_mul_ge _ page_size (by omega)

/-- C1 witness: a three-book store paged with page_size 2 at page 2
returns at most 2 items. -/
theorem C1_books_pagination_witness :
    (BookService.get_books_list
      { books := [{ id := 1, title := "Alpha", rating := none,
                    description := none, published_year := none },
                  { id := 2, title := "Zeta", rating := none,
                    description := none, published_year := none },
                  { id := 3, title := "Mango", rating := none,
                    description := none, published_year := none }],
        genres := [], bookGenres := [], contributors := [], bookContributors := [] }
      ((2 : Nat) : Int) ((2 : Nat) : Int) "title" "asc" none none none none none).items.length
      ≤ 2 :=
  (C1_books_pagination _ "title" "asc" none none none none none 2 2
    (by decide) (by decide) (by decide)).1

end BooksApi
